import Mathlib

/-
Verification of the frost_risks computation core (custom_components/frost_risks/sensor.py).

The seven psychrometric formulas and the risk classifier are embedded as functions on ℝ.
Fallible computations (those whose Python originals can raise ValueError from math.log
or ZeroDivisionError from float division) return Except Unit ℝ, with the guards placed
in the evaluation order of the Python expressions.  Rounding with round(x, 2) is
modelled by round2 (round half-up to two decimals; the source values proved about
never sit on a half-cent boundary, where banker rounding could differ).
-/

noncomputable section

namespace FrostRisks

/-- Round to two decimal places, mirroring the source's round(x, 2). -/
def round2 (x : ℝ) : ℝ := ((round (100 * x) : ℤ) : ℝ) / 100

/-- Embedding of _compute_absolute_humidity (sensor.py lines 194-209):
abs_humidity = 6.112 * exp((17.67*T)/(243.5+T)); *= humidity/100; *= 2.1674; /= (T+273.15);
rounded to 2 decimals.  Guards: the exponent denominator 243.5+T and the final
divisor T+273.15 must be nonzero. -/
def computeAbsoluteHumidity (t h : ℝ) : Except Unit ℝ :=
  if 243.5 + t = 0 then .error () else
  if t + 273.15 = 0 then .error () else
  .ok (round2 (6.112 * Real.exp ((17.67 * t) / (243.5 + t)) * (h / 100) * 2.1674 /
    (t + 273.15)))

/-- Embedding of _compute_dew_point (sensor.py lines 211-228), Magnus-Tetens with
a = 17.27, b = 237.7: alpha = (a*T)/(b+T) + ln(h/100); result (b*alpha)/(a-alpha)
rounded to 2 decimals.  Guards in Python evaluation order: division by b+T, the
logarithm domain h/100 > 0, and division by a-alpha. -/
def computeDewPoint (t h : ℝ) : Except Unit ℝ :=
  if 237.7 + t = 0 then .error () else
  if h / 100 ≤ 0 then .error () else
  if 17.27 - ((17.27 * t) / (237.7 + t) + Real.log (h / 100)) = 0 then .error () else
  .ok (round2 ((237.7 * ((17.27 * t) / (237.7 + t) + Real.log (h / 100))) /
    (17.27 - ((17.27 * t) / (237.7 + t) + Real.log (h / 100)))))

/-- Modelled from the spec's description of the frost-point ice-phase recompute:
the ice-saturation Magnus formula with a = 21.875, b = 265.5 applied to the original
T and RH, rounded to 2 decimals (used to state claim C5 against the code). -/
def iceMagnusSpec (t h : ℝ) : Except Unit ℝ :=
  if 265.5 + t = 0 then .error () else
  if h / 100 ≤ 0 then .error () else
  if 21.875 - ((21.875 * t) / (265.5 + t) + Real.log (h / 100)) = 0 then .error () else
  .ok (round2 ((265.5 * ((21.875 * t) / (265.5 + t) + Real.log (h / 100))) /
    (21.875 - ((21.875 * t) / (265.5 + t) + Real.log (h / 100)))))

/-- Embedding of _compute_frost_point (sensor.py lines 230-252): compute the dew point;
if it is below zero, recompute with the ice constants a = 21.875, b = 265.5 on the
original inputs, else return the dew point (re-rounded, as the source does). -/
def computeFrostPoint (t h : ℝ) : Except Unit ℝ :=
  match computeDewPoint t h with
  | .error e => .error e
  | .ok d =>
    if d < 0 then
      if 265.5 + t = 0 then .error () else
      if h / 100 ≤ 0 then .error () else
      if 21.875 - ((21.875 * t) / (265.5 + t) + Real.log (h / 100)) = 0 then .error () else
      .ok (round2 ((265.5 * ((21.875 * t) / (265.5 + t) + Real.log (h / 100))) /
        (21.875 - ((21.875 * t) / (265.5 + t) + Real.log (h / 100)))))
    else .ok (round2 d)

/-- Embedding of _compute_freezing_point (sensor.py lines 254-272): with T, Td in
Kelvin, (Td + 2671.02/((2954.61/T) + 2.193665*ln T - 13.3448) - T) - 273.15, rounded
to 2 decimals.  Guards: T > 0 (covers both the 2954.61/T division and the ln T
domain) and a nonzero inner denominator. -/
def computeFreezingPoint (t h : ℝ) : Except Unit ℝ :=
  match computeDewPoint t h with
  | .error e => .error e
  | .ok d =>
    if t + 273.15 ≤ 0 then .error () else
    if 2954.61 / (t + 273.15) + 2.193665 * Real.log (t + 273.15) - 13.3448 = 0 then
      .error ()
    else
      .ok (round2 ((d + 273.15 +
        2671.02 / (2954.61 / (t + 273.15) + 2.193665 * Real.log (t + 273.15) - 13.3448) -
        (t + 273.15)) - 273.15))

/-- Stull's wet-bulb formula exactly as written in sensor.py lines 295-301 (rh is the
already-clamped relative humidity). -/
def stullExpr (t rh : ℝ) : ℝ :=
  t * Real.arctan (0.151977 * Real.sqrt (rh + 8.313659)) +
    Real.arctan (t + rh) - Real.arctan (rh - 1.676331) +
    0.00391838 * rh ^ (1.5 : ℝ) * Real.arctan (0.023101 * rh) - 4.686035

/-- Embedding of _compute_wet_bulb_temperature (sensor.py lines 274-303): clamp the
humidity into [0,100] as max(0, min(100, h)); below 5 percent return T - 0.5, else
apply Stull's formula; both rounded to 2 decimals.  Total: no failure is possible. -/
def computeWetBulb (t h : ℝ) : ℝ :=
  if max 0 (min 100 h) < 5 then round2 (t - 0.5)
  else round2 (stullExpr t (max 0 (min 100 h)))

/-- Embedding of _compute_vapor_pressure (sensor.py lines 305-320):
es = 6.112 * exp((17.67*T)/(T+243.5)); e = es * (h/100); rounded to 2 decimals. -/
def computeVaporPressure (t h : ℝ) : Except Unit ℝ :=
  if t + 243.5 = 0 then .error () else
  .ok (round2 (6.112 * Real.exp ((17.67 * t) / (t + 243.5)) * (h / 100)))

/-- Temperature ladder of the risk classifier (sensor.py lines 369-379). -/
def tempLadder (t : ℝ) : ℤ :=
  if t ≤ -5 then 5 else if t ≤ -2 then 4 else if t ≤ 0 then 3 else if t ≤ 2 then 2
  else if t ≤ 4 then 1 else 0

/-- Dew-point ladder of the risk classifier (sensor.py lines 381-389). -/
def dpLadder (dp : ℝ) : ℤ :=
  if dp ≤ -5 then 4 else if dp ≤ -2 then 3 else if dp ≤ 0 then 2 else if dp ≤ 2 then 1
  else 0

/-- Wet-bulb ladder of the risk classifier (sensor.py lines 391-395). -/
def wbLadder (wb t : ℝ) : ℤ :=
  if wb ≤ 0 ∧ t ≤ 2 then 4 else if wb ≤ 1 ∧ t ≤ 3 then 3 else 0

/-- Freezing-point ladder of the risk classifier (sensor.py lines 397-403). -/
def fpLadder (fp : ℝ) : ℤ :=
  if fp ≤ -2 then 4 else if fp ≤ 0 then 3 else if fp ≤ 1 then 2 else 0

/-- Absolute-humidity ladder of the risk classifier (sensor.py lines 405-411),
an ordered first-match if/elif chain. -/
def ahLadder (ah t fp : ℝ) : ℤ :=
  if ah < 2.8 ∧ t ≤ 1 ∧ fp ≤ 0 then 1
  else if 2.8 ≤ ah ∧ t ≤ 4 ∧ fp ≤ 0.5 then 2
  else if 2.8 ≤ ah ∧ t ≤ 1 ∧ fp ≤ 0 then 3
  else 0

/-- Risk-level accumulation of _compute_frost_risk_level (sensor.py lines 366-414),
as a pure function of the five ladder inputs: risk_level starts at 0, each of the
five if/elif chains raises it with max, and the result is clamped into [0, 5]. -/
def riskFromMetrics (t dp wb fp ah : ℝ) : ℤ :=
  let r0 : ℤ := 0
  let r1 := if t ≤ -5 then max r0 5 else if t ≤ -2 then max r0 4 else if t ≤ 0 then max r0 3
    else if t ≤ 2 then max r0 2 else if t ≤ 4 then max r0 1 else r0
  let r2 := if dp ≤ -5 then max r1 4 else if dp ≤ -2 then max r1 3 else if dp ≤ 0 then max r1 2
    else if dp ≤ 2 then max r1 1 else r1
  let r3 := if wb ≤ 0 ∧ t ≤ 2 then max r2 4 else if wb ≤ 1 ∧ t ≤ 3 then max r2 3 else r2
  let r4 := if fp ≤ -2 then max r3 4 else if fp ≤ 0 then max r3 3 else if fp ≤ 1 then max r3 2
    else r3
  let r5 := if ah < 2.8 ∧ t ≤ 1 ∧ fp ≤ 0 then max r4 1
    else if 2.8 ≤ ah ∧ t ≤ 4 ∧ fp ≤ 0.5 then max r4 2
    else if 2.8 ≤ ah ∧ t ≤ 1 ∧ fp ≤ 0 then max r4 3
    else r4
  max 0 (min 5 r5)

/-- Embedding of _compute_frost_risk_level (sensor.py lines 342-414): derive dew point,
wet bulb, freezing point and absolute humidity from (t, h), then run the ladder
accumulation; any domain failure of a derived quantity propagates. -/
def computeFrostRiskLevel (t h : ℝ) : Except Unit ℤ :=
  match computeDewPoint t h with
  | .error e => .error e
  | .ok dp =>
    match computeFreezingPoint t h with
    | .error e => .error e
    | .ok fp =>
      match computeAbsoluteHumidity t h with
      | .error e => .error e
      | .ok ah => .ok (riskFromMetrics t dp (computeWetBulb t h) fp ah)

/- Numeric groundwork: rounding lemmas and interval bounds for the transcendental
values that appear at the concrete inputs of the spec's scenarios. -/

theorem round2_eq_int (x : ℝ) (k : ℤ) (h1 : (k : ℝ) ≤ 100 * x + 1 / 2)
    (h2 : 100 * x + 1 / 2 < (k : ℝ) + 1) : round2 x = (k : ℝ) / 100 := by
  unfold round2
  rw [round_eq, Int.floor_eq_iff.mpr ⟨h1, h2⟩]

theorem round2_close (x : ℝ) : |round2 x - x| ≤ 1 / 200 := by
  unfold round2
  have h := abs_sub_round (100 * x)
  rw [abs_sub_comm] at h
  have heq : ((round (100 * x) : ℤ) : ℝ) / 100 - x =
      (((round (100 * x) : ℤ) : ℝ) - 100 * x) / 100 := by ring
  rw [heq, abs_div, abs_of_pos (by norm_num : (0:ℝ) < 100)]
  linarith

theorem round2_idem (x : ℝ) : round2 (round2 x) = round2 x := by
  unfold round2
  have heq : (100 : ℝ) * (((round (100 * x) : ℤ) : ℝ) / 100) =
      ((round (100 * x) : ℤ) : ℝ) := by ring
  rw [heq, round_intCast]

theorem exp_2985_bounds : 1.406600 < Real.exp (29 / 85) ∧ Real.exp (29 / 85) < 1.406603 := by
  have h : |(29 / 85 : ℝ)| ≤ 1 := by rw [abs_of_nonneg (by norm_num)]; norm_num
  have hb := Real.exp_bound h (n := 7) (by norm_num)
  rw [abs_of_nonneg (by norm_num : (0:ℝ) ≤ 29 / 85)] at hb
  rw [Finset.sum_range_succ, Finset.sum_range_succ, Finset.sum_range_succ,
    Finset.sum_range_succ, Finset.sum_range_succ, Finset.sum_range_succ,
    Finset.sum_range_succ, Finset.sum_range_zero] at hb
  norm_num [Nat.factorial] at hb
  rw [abs_le] at hb
  constructor <;> nlinarith [hb.1, hb.2]

theorem exp_11485_bounds : 3.8235 < Real.exp (114 / 85) ∧ Real.exp (114 / 85) < 3.82355 := by
  have h1 : (114 / 85 : ℝ) = 1 + 29 / 85 := by norm_num
  rw [h1, Real.exp_add]
  have e1l := Real.exp_one_gt_d9
  have e1u := Real.exp_one_lt_d9
  have h2 := exp_2985_bounds
  have hp : (0:ℝ) < Real.exp 1 := Real.exp_pos 1
  have hp2 : (0:ℝ) < Real.exp (29 / 85) := Real.exp_pos _
  constructor <;> nlinarith [h2.1, h2.2]

theorem log_29315_bounds : 5.67 < Real.log 293.15 ∧ Real.log 293.15 < 5.70 := by
  have h256 : (293.15 : ℝ) = 2 ^ 8 * 1.1451171875 := by norm_num
  have hlog : Real.log 293.15 = 8 * Real.log 2 + Real.log 1.1451171875 := by
    rw [h256, Real.log_mul (by positivity) (by norm_num), Real.log_pow]
    norm_num
  have hub : Real.log 1.1451171875 ≤ 1.1451171875 - 1 :=
    Real.log_le_sub_one_of_pos (by norm_num)
  have hlb : 1 - (1.1451171875 : ℝ)⁻¹ ≤ Real.log 1.1451171875 := by
    have h1 : Real.log (1.1451171875 : ℝ)⁻¹ ≤ (1.1451171875 : ℝ)⁻¹ - 1 :=
      Real.log_le_sub_one_of_pos (by norm_num)
    rw [Real.log_inv] at h1
    linarith
  have h2a := Real.log_two_gt_d9
  have h2b := Real.log_two_lt_d9
  rw [hlog]
  constructor <;> nlinarith

/- Evaluation of the dew point at the concrete inputs used by the spec scenarios. -/

theorem dew_20_100 : computeDewPoint 20 100 = Except.ok 20 := by
  unfold computeDewPoint
  rw [if_neg (by norm_num), if_neg (by norm_num)]
  rw [show ((100 : ℝ) / 100) = 1 by norm_num, Real.log_one]
  rw [if_neg (by norm_num)]
  have hval : round2 ((237.7 * ((17.27 * 20) / (237.7 + 20) + 0)) /
      (17.27 - ((17.27 * 20) / (237.7 + 20) + 0))) = 20 := by
    have h : ((237.7 : ℝ) * ((17.27 * 20) / (237.7 + 20) + 0)) /
        (17.27 - ((17.27 * 20) / (237.7 + 20) + 0)) = 20 := by norm_num
    rw [h, round2_eq_int 20 2000 (by norm_num) (by norm_num)]
    norm_num
  rw [hval]

theorem dew_m10_100 : computeDewPoint (-10) 100 = Except.ok (-10) := by
  unfold computeDewPoint
  rw [if_neg (by norm_num), if_neg (by norm_num)]
  rw [show ((100 : ℝ) / 100) = 1 by norm_num, Real.log_one]
  rw [if_neg (by norm_num)]
  have hval : round2 ((237.7 * ((17.27 * (-10)) / (237.7 + (-10)) + 0)) /
      (17.27 - ((17.27 * (-10)) / (237.7 + (-10)) + 0))) = -10 := by
    have h : ((237.7 : ℝ) * ((17.27 * (-10)) / (237.7 + (-10)) + 0)) /
        (17.27 - ((17.27 * (-10)) / (237.7 + (-10)) + 0)) = -10 := by norm_num
    rw [h, round2_eq_int (-10) (-1000) (by norm_num) (by norm_num)]
    norm_num
  rw [hval]

theorem dewPoint_ok_rounded (t h d : ℝ) (hd : computeDewPoint t h = Except.ok d) :
    round2 d = d := by
  unfold computeDewPoint at hd
  split_ifs at hd
  all_goals first
  | exact Except.noConfusion hd
  | (rw [Except.ok.injEq] at hd; rw [← hd, round2_idem])

theorem dew_20_50 : computeDewPoint 20 50 = Except.ok 9.25 := by
  unfold computeDewPoint
  rw [if_neg (by norm_num), if_neg (by norm_num)]
  rw [show ((50 : ℝ) / 100) = (2 : ℝ)⁻¹ by norm_num, Real.log_inv]
  have h2a := Real.log_two_gt_d9
  have h2b := Real.log_two_lt_d9
  have hq : ((17.27 : ℝ) * 20) / (237.7 + 20) = 3454 / 2577 := by norm_num
  rw [hq]
  have halo : (0.6471 : ℝ) < 3454 / 2577 + -Real.log 2 := by nlinarith
  have hahi : (3454 / 2577 : ℝ) + -Real.log 2 < 0.6472 := by nlinarith
  have hden : (0 : ℝ) < 17.27 - (3454 / 2577 + -Real.log 2) := by nlinarith
  rw [if_neg (ne_of_gt hden)]
  have hX_lo : (9.245 : ℝ) ≤ (237.7 * (3454 / 2577 + -Real.log 2)) /
      (17.27 - (3454 / 2577 + -Real.log 2)) := by
    rw [le_div_iff hden]; nlinarith
  have hX_hi : (237.7 * (3454 / 2577 + -Real.log 2)) /
      (17.27 - (3454 / 2577 + -Real.log 2)) < 9.255 := by
    rw [div_lt_iff hden]; nlinarith
  rw [round2_eq_int _ 925 (by push_cast; linarith) (by push_cast; linarith)]
  norm_num

/- Absolute humidity and vapor pressure at the spec's first scenario (T=20, RH=50). -/

theorem absHumidity_ok (t h : ℝ) (h1 : 243.5 + t ≠ 0) (h2 : t + 273.15 ≠ 0) :
    computeAbsoluteHumidity t h =
      Except.ok (round2 (6.112 * Real.exp ((17.67 * t) / (243.5 + t)) * (h / 100) * 2.1674 /
        (t + 273.15))) := by
  unfold computeAbsoluteHumidity
  rw [if_neg h1, if_neg h2]

theorem ah_20_50 : computeAbsoluteHumidity 20 50 = Except.ok 0.09 := by
  rw [absHumidity_ok 20 50 (by norm_num) (by norm_num)]
  have harg : ((17.67 : ℝ) * 20) / (243.5 + 20) = 114 / 85 := by norm_num
  rw [harg]
  have hE := exp_11485_bounds
  have hX_lo : (0.085 : ℝ) ≤ 6.112 * Real.exp (114 / 85) * (50 / 100) * 2.1674 / (20 + 273.15) := by
    rw [le_div_iff (by norm_num : (0:ℝ) < 20 + 273.15)]
    nlinarith [hE.1]
  have hX_hi : 6.112 * Real.exp (114 / 85) * (50 / 100) * 2.1674 / (20 + 273.15) < 0.095 := by
    rw [div_lt_iff (by norm_num : (0:ℝ) < 20 + 273.15)]
    nlinarith [hE.2]
  rw [round2_eq_int _ 9 (by push_cast; linarith) (by push_cast; linarith)]
  norm_num

theorem vapor_20_50 : computeVaporPressure 20 50 = Except.ok 11.68 := by
  unfold computeVaporPressure
  rw [if_neg (by norm_num)]
  have harg : ((17.67 : ℝ) * 20) / (20 + 243.5) = 114 / 85 := by norm_num
  rw [harg]
  have hE := exp_11485_bounds
  have hX_lo : (11.675 : ℝ) ≤ 6.112 * Real.exp (114 / 85) * (50 / 100) := by nlinarith [hE.1]
  have hX_hi : 6.112 * Real.exp (114 / 85) * (50 / 100) < 11.685 := by nlinarith [hE.2]
  rw [round2_eq_int _ 1168 (by push_cast; linarith) (by push_cast; linarith)]
  norm_num

/- Freezing point at T = 20: for a dew point between 9 and 20 the result exceeds 1. -/

theorem freezing_20 (h d : ℝ) (hdew : computeDewPoint 20 h = Except.ok d)
    (h9 : 9 ≤ d) :
    ∃ v, computeFreezingPoint 20 h = Except.ok v ∧ 1 < v := by
  unfold computeFreezingPoint
  rw [hdew]
  dsimp only
  rw [show ((20 : ℝ) + 273.15) = 293.15 by norm_num]
  have hL := log_29315_bounds
  have hden_lo : (9.17 : ℝ) < 2954.61 / 293.15 + 2.193665 * Real.log 293.15 - 13.3448 := by
    nlinarith [hL.1]
  have hden_hi : 2954.61 / 293.15 + 2.193665 * Real.log 293.15 - 13.3448 < 9.238 := by
    nlinarith [hL.2]
  rw [if_neg (by norm_num), if_neg (ne_of_gt (by linarith))]
  refine ⟨_, rfl, ?_⟩
  have hden_pos : (0 : ℝ) < 2954.61 / 293.15 + 2.193665 * Real.log 293.15 - 13.3448 := by
    linarith
  have hQ : (289 : ℝ) < 2671.02 / (2954.61 / 293.15 + 2.193665 * Real.log 293.15 - 13.3448) := by
    rw [lt_div_iff hden_pos]
    nlinarith
  have hclose := round2_close (d + 273.15 +
    2671.02 / (2954.61 / 293.15 + 2.193665 * Real.log 293.15 - 13.3448) - 293.15 - 273.15)
  rw [abs_le] at hclose
  have harr : (d + 273.15 +
      2671.02 / (2954.61 / 293.15 + 2.193665 * Real.log 293.15 - 13.3448) - 293.15) - 273.15 =
      d + 273.15 +
      2671.02 / (2954.61 / 293.15 + 2.193665 * Real.log 293.15 - 13.3448) - 293.15 - 273.15 := by
    ring
  rw [harr]
  linarith [hclose.1]

/- Decomposition of the risk accumulation into the five independent ladders. -/

theorem tempStep (t : ℝ) :
    (if t ≤ -5 then max (0:ℤ) 5 else if t ≤ -2 then max (0:ℤ) 4 else if t ≤ 0 then max (0:ℤ) 3
      else if t ≤ 2 then max (0:ℤ) 2 else if t ≤ 4 then max (0:ℤ) 1 else (0:ℤ)) =
      tempLadder t := by
  unfold tempLadder; split_ifs <;> omega

theorem dpStep (dp : ℝ) (r : ℤ) (hr : 0 ≤ r) :
    (if dp ≤ -5 then max r 4 else if dp ≤ -2 then max r 3 else if dp ≤ 0 then max r 2
      else if dp ≤ 2 then max r 1 else r) = max r (dpLadder dp) := by
  unfold dpLadder; split_ifs <;> omega

theorem wbStep (wb t : ℝ) (r : ℤ) (hr : 0 ≤ r) :
    (if wb ≤ 0 ∧ t ≤ 2 then max r 4 else if wb ≤ 1 ∧ t ≤ 3 then max r 3 else r) =
      max r (wbLadder wb t) := by
  unfold wbLadder; split_ifs <;> omega

theorem fpStep (fp : ℝ) (r : ℤ) (hr : 0 ≤ r) :
    (if fp ≤ -2 then max r 4 else if fp ≤ 0 then max r 3 else if fp ≤ 1 then max r 2 else r) =
      max r (fpLadder fp) := by
  unfold fpLadder; split_ifs <;> omega

theorem ahStep (ah t fp : ℝ) (r : ℤ) (hr : 0 ≤ r) :
    (if ah < 2.8 ∧ t ≤ 1 ∧ fp ≤ 0 then max r 1
      else if 2.8 ≤ ah ∧ t ≤ 4 ∧ fp ≤ 0.5 then max r 2
      else if 2.8 ≤ ah ∧ t ≤ 1 ∧ fp ≤ 0 then max r 3
      else r) = max r (ahLadder ah t fp) := by
  unfold ahLadder; split_ifs <;> omega

theorem tempLadder_nonneg (t : ℝ) : 0 ≤ tempLadder t := by
  unfold tempLadder; split_ifs <;> omega

theorem risk_eq (t dp wb fp ah : ℝ) :
    riskFromMetrics t dp wb fp ah =
      max 0 (min 5 (max (max (max (max (tempLadder t) (dpLadder dp)) (wbLadder wb t))
        (fpLadder fp)) (ahLadder ah t fp))) := by
  have h0 := tempLadder_nonneg t
  simp only [riskFromMetrics]
  rw [tempStep, dpStep dp _ h0,
    wbStep wb t _ (by omega),
    fpStep fp _ (by omega),
    ahStep ah t fp _ (by omega)]

/- Range and shape facts about the individual ladders. -/

theorem tempLadder_le5 (t : ℝ) : tempLadder t ≤ 5 := by
  unfold tempLadder; split_ifs <;> omega

theorem tempLadder_eq5_iff (t : ℝ) : tempLadder t = 5 ↔ t ≤ -5 := by
  unfold tempLadder
  split_ifs with h1 h2 h3 h4 h5 <;> constructor <;> intro hx <;> first | omega | linarith

theorem dpLadder_le4 (dp : ℝ) : dpLadder dp ≤ 4 := by
  unfold dpLadder; split_ifs <;> omega

theorem wbLadder_le4 (wb t : ℝ) : wbLadder wb t ≤ 4 := by
  unfold wbLadder; split_ifs <;> omega

theorem fpLadder_le4 (fp : ℝ) : fpLadder fp ≤ 4 := by
  unfold fpLadder; split_ifs <;> omega

theorem ahLadder_le3 (ah t fp : ℝ) : ahLadder ah t fp ≤ 3 := by
  unfold ahLadder; split_ifs <;> omega

/- Antitonicity of each ladder in the severity direction. -/

theorem tempLadder_anti (t t' : ℝ) (h : t' ≤ t) : tempLadder t ≤ tempLadder t' := by
  unfold tempLadder
  split_ifs <;> first | omega | linarith

theorem dpLadder_anti (dp dp' : ℝ) (h : dp' ≤ dp) : dpLadder dp ≤ dpLadder dp' := by
  unfold dpLadder
  split_ifs <;> first | omega | linarith

theorem fpLadder_anti (fp fp' : ℝ) (h : fp' ≤ fp) : fpLadder fp ≤ fpLadder fp' := by
  unfold fpLadder
  split_ifs <;> first | omega | linarith

theorem wbLadder_anti (wb wb' t t' : ℝ) (hw : wb' ≤ wb) (ht : t' ≤ t) :
    wbLadder wb t ≤ wbLadder wb' t' := by
  unfold wbLadder
  by_cases h1 : wb ≤ 0 ∧ t ≤ 2
  · have h1' : wb' ≤ 0 ∧ t' ≤ 2 := ⟨by linarith [h1.1], by linarith [h1.2]⟩
    rw [if_pos h1, if_pos h1']
  · rw [if_neg h1]
    by_cases h2 : wb ≤ 1 ∧ t ≤ 3
    · have h2' : wb' ≤ 1 ∧ t' ≤ 3 := ⟨by linarith [h2.1], by linarith [h2.2]⟩
      rw [if_pos h2]
      by_cases h1' : wb' ≤ 0 ∧ t' ≤ 2
      · rw [if_pos h1']; omega
      · rw [if_neg h1', if_pos h2']
    · rw [if_neg h2]
      split_ifs <;> omega

theorem ahLadder_anti (ah t t' fp fp' : ℝ) (ht : t' ≤ t) (hf : fp' ≤ fp) :
    ahLadder ah t fp ≤ ahLadder ah t' fp' := by
  unfold ahLadder
  by_cases hah : ah < 2.8
  · have hn2 : ¬(2.8 ≤ ah ∧ t ≤ 4 ∧ fp ≤ 0.5) := by rintro ⟨hc, -⟩; linarith
    have hn3 : ¬(2.8 ≤ ah ∧ t ≤ 1 ∧ fp ≤ 0) := by rintro ⟨hc, -⟩; linarith
    by_cases hb1 : ah < 2.8 ∧ t ≤ 1 ∧ fp ≤ 0
    · have hb1' : ah < 2.8 ∧ t' ≤ 1 ∧ fp' ≤ 0 :=
        ⟨hah, by linarith [hb1.2.1], by linarith [hb1.2.2]⟩
      rw [if_pos hb1, if_pos hb1']
    · rw [if_neg hb1, if_neg hn2, if_neg hn3]
      split_ifs <;> omega
  · have hb1n : ¬(ah < 2.8 ∧ t ≤ 1 ∧ fp ≤ 0) := by rintro ⟨hc, -⟩; exact hah hc
    have hb1n' : ¬(ah < 2.8 ∧ t' ≤ 1 ∧ fp' ≤ 0) := by rintro ⟨hc, -⟩; exact hah hc
    rw [if_neg hb1n, if_neg hb1n']
    by_cases hb2 : 2.8 ≤ ah ∧ t ≤ 4 ∧ fp ≤ 0.5
    · have hb2' : 2.8 ≤ ah ∧ t' ≤ 4 ∧ fp' ≤ 0.5 :=
        ⟨hb2.1, by linarith [hb2.2.1], by linarith [hb2.2.2]⟩
      rw [if_pos hb2, if_pos hb2']
    · have hb3 : ¬(2.8 ≤ ah ∧ t ≤ 1 ∧ fp ≤ 0) := by
        rintro ⟨ha, hb, hc⟩; exact hb2 ⟨ha, by linarith, by linarith⟩
      rw [if_neg hb2, if_neg hb3]
      split_ifs <;> omega

/- Risk evaluation at T = 20 and assembly of the full pipeline at concrete inputs. -/

theorem riskFromMetrics_20 (dp wb fp ah : ℝ) (hdp : 2 < dp) (hfp : 1 < fp) :
    riskFromMetrics 20 dp wb fp ah = 0 := by
  rw [risk_eq]
  have h1 : tempLadder 20 = 0 := by unfold tempLadder; norm_num
  have h2 : dpLadder dp = 0 := by
    unfold dpLadder
    rw [if_neg (by linarith), if_neg (by linarith), if_neg (by linarith), if_neg (by linarith)]
  have h3 : wbLadder wb 20 = 0 := by
    unfold wbLadder
    rw [if_neg (by rintro ⟨-, hc⟩; norm_num at hc), if_neg (by rintro ⟨-, hc⟩; norm_num at hc)]
  have h4 : fpLadder fp = 0 := by
    unfold fpLadder
    rw [if_neg (by linarith), if_neg (by linarith), if_neg (by linarith)]
  have h5 : ahLadder ah 20 fp = 0 := by
    unfold ahLadder
    rw [if_neg (by rintro ⟨-, hc, -⟩; norm_num at hc),
      if_neg (by rintro ⟨-, hc, -⟩; norm_num at hc),
      if_neg (by rintro ⟨-, hc, -⟩; norm_num at hc)]
  rw [h1, h2, h3, h4, h5]
  omega

theorem frostRisk_ok (t h dp fp ah : ℝ) (h1 : computeDewPoint t h = Except.ok dp)
    (h2 : computeFreezingPoint t h = Except.ok fp)
    (h3 : computeAbsoluteHumidity t h = Except.ok ah) :
    computeFrostRiskLevel t h =
      Except.ok (riskFromMetrics t dp (computeWetBulb t h) fp ah) := by
  unfold computeFrostRiskLevel
  rw [h1]
  dsimp only
  rw [h2]
  dsimp only
  rw [h3]

theorem frostRisk_ok_inv (t h : ℝ) (r : ℤ) (hr : computeFrostRiskLevel t h = Except.ok r) :
    ∃ dp wb fp ah, r = riskFromMetrics t dp wb fp ah := by
  unfold computeFrostRiskLevel at hr
  cases hdp : computeDewPoint t h with
  | error e => rw [hdp] at hr; exact Except.noConfusion hr
  | ok dp =>
    rw [hdp] at hr
    dsimp only at hr
    cases hfp : computeFreezingPoint t h with
    | error e => rw [hfp] at hr; exact Except.noConfusion hr
    | ok fp =>
      rw [hfp] at hr
      dsimp only at hr
      cases hah : computeAbsoluteHumidity t h with
      | error e => rw [hah] at hr; exact Except.noConfusion hr
      | ok ah =>
        rw [hah] at hr
        dsimp only at hr
        rw [Except.ok.injEq] at hr
        exact ⟨dp, computeWetBulb t h, fp, ah, hr.symm⟩

theorem frostRisk_20_100 : computeFrostRiskLevel 20 100 = Except.ok 0 := by
  obtain ⟨v, hv, hv1⟩ := freezing_20 100 20 dew_20_100 (by norm_num)
  have hstep := frostRisk_ok 20 100 20 v _ dew_20_100 hv
    (absHumidity_ok 20 100 (by norm_num) (by norm_num))
  rw [hstep, riskFromMetrics_20 _ _ _ _ (by norm_num) hv1]

theorem frostRisk_20_50 : computeFrostRiskLevel 20 50 = Except.ok 0 := by
  obtain ⟨v, hv, hv1⟩ := freezing_20 50 9.25 dew_20_50 (by norm_num)
  have hstep := frostRisk_ok 20 50 9.25 v _ dew_20_50 hv
    (absHumidity_ok 20 50 (by norm_num) (by norm_num))
  rw [hstep, riskFromMetrics_20 _ _ _ _ (by norm_num) hv1]

/- Remaining helper lemmas used by the claim theorems. -/

theorem dewPoint_err_of_nonpos (t h : ℝ) (hh : h ≤ 0) :
    computeDewPoint t h = Except.error () := by
  unfold computeDewPoint
  by_cases h1 : 237.7 + t = 0
  · rw [if_pos h1]
  · rw [if_neg h1, if_pos (by linarith : h / 100 ≤ 0)]

theorem dew_20_small : ∃ v, computeDewPoint 20 0.0001 = Except.ok v := by
  unfold computeDewPoint
  rw [if_neg (by norm_num), if_neg (by norm_num)]
  have hlogneg : Real.log ((0.0001 : ℝ) / 100) < 0 :=
    Real.log_neg (by norm_num) (by norm_num)
  rw [if_neg (ne_of_gt (by nlinarith :
    (0:ℝ) < 17.27 - ((17.27 * 20) / (237.7 + 20) + Real.log ((0.0001 : ℝ) / 100))))]
  exact ⟨_, rfl⟩

theorem riskFromMetrics_anti (t t' dp dp' wb wb' fp fp' ah : ℝ)
    (ht : t' ≤ t) (hdp : dp' ≤ dp) (hw : wb' ≤ wb) (hf : fp' ≤ fp) :
    riskFromMetrics t dp wb fp ah ≤ riskFromMetrics t' dp' wb' fp' ah := by
  rw [risk_eq, risk_eq]
  have l1 := tempLadder_anti t t' ht
  have l2 := dpLadder_anti dp dp' hdp
  have l3 := wbLadder_anti wb wb' t t' hw ht
  have l4 := fpLadder_anti fp fp' hf
  have l5 := ahLadder_anti ah t t' fp fp' ht hf
  omega

theorem riskFromMetrics_eq5_iff (t dp wb fp ah : ℝ) :
    riskFromMetrics t dp wb fp ah = 5 ↔ t ≤ -5 := by
  rw [risk_eq]
  have b1 := tempLadder_le5 t
  have b2 := dpLadder_le4 dp
  have b3 := wbLadder_le4 wb t
  have b4 := fpLadder_le4 fp
  have b5 := ahLadder_le3 ah t fp
  have h5 := tempLadder_eq5_iff t
  constructor
  · intro h
    exact h5.mp (by omega)
  · intro h
    have := h5.mpr h
    omega

/- The claim theorems. -/

/-- C1 counterexample: at T=20, RH=50 the code's absolute humidity is 0.09 g/m³
(the implementation divides RH by 100 although its documented formula uses RH in
percent), which is far from the claimed 8.64. -/
theorem C1_claim_false :
    computeAbsoluteHumidity 20 50 = Except.ok 0.09 ∧ (0.09 : ℝ) < 8.64 :=
  ⟨ah_20_50, by norm_num⟩

/-- C1 amended: at T=20, RH=50 the code returns absolute_humidity = 0.09,
dew_point = 9.25, vapor_pressure = 11.68 and frost-risk level 0. -/
theorem C1_actual_values :
    computeAbsoluteHumidity 20 50 = Except.ok 0.09 ∧
    computeDewPoint 20 50 = Except.ok 9.25 ∧
    computeVaporPressure 20 50 = Except.ok 11.68 ∧
    computeFrostRiskLevel 20 50 = Except.ok 0 :=
  ⟨ah_20_50, dew_20_50, vapor_20_50, frostRisk_20_50⟩

/-- C2 counterexample: at T=20, RH=0.0001 the dew-point computation does NOT fail:
ln(0.0001/100) = ln(10⁻⁶) is well inside the logarithm's domain, so a numeric
result is produced. -/
theorem C2_claim_false : (computeDewPoint 20 0.0001).isOk = true := by
  obtain ⟨v, hv⟩ := dew_20_small
  rw [hv]
  rfl

/-- C2 amended: dew_point(20, 0.0001) succeeds with a numeric result; a domain
error requires RH ≤ 0 (for example RH = 0 does fail). -/
theorem C2_no_domain_failure :
    (computeDewPoint 20 0.0001).isOk = true ∧ (computeDewPoint 20 0).isOk = false := by
  constructor
  · obtain ⟨v, hv⟩ := dew_20_small
    rw [hv]
    rfl
  · rw [dewPoint_err_of_nonpos 20 0 (le_refl 0)]
    rfl

/-- C3: whenever the frost-risk computation returns a value, that value lies in
[0, 5] — the final clamp (and the ladder structure) guarantee it for all inputs. -/
theorem C3_risk_range : ∀ t h : ℝ, ∀ r : ℤ, computeFrostRiskLevel t h = Except.ok r →
    0 ≤ r ∧ r ≤ 5 := by
  intro t h r hr
  obtain ⟨dp, wb, fp, ah, rfl⟩ := frostRisk_ok_inv t h r hr
  rw [risk_eq]
  exact ⟨le_max_left 0 _, max_le (by norm_num) (min_le_left 5 _)⟩

/-- C3 witness: the risk level computed at T=20, RH=100 is in [0, 5]. -/
theorem C3_risk_range_witness : (0 : ℤ) ≤ 0 ∧ (0 : ℤ) ≤ 5 :=
  C3_risk_range 20 100 0 frostRisk_20_100

/-- C4: the risk classifier, as a function of the five ladder inputs, never
decreases when any one of T, dew point, wet bulb or freezing point decreases
while the other four inputs are held fixed. -/
theorem C4_risk_monotone :
    (∀ t t' dp wb fp ah : ℝ, t' ≤ t →
      riskFromMetrics t dp wb fp ah ≤ riskFromMetrics t' dp wb fp ah) ∧
    (∀ t dp dp' wb fp ah : ℝ, dp' ≤ dp →
      riskFromMetrics t dp wb fp ah ≤ riskFromMetrics t dp' wb fp ah) ∧
    (∀ t dp wb wb' fp ah : ℝ, wb' ≤ wb →
      riskFromMetrics t dp wb fp ah ≤ riskFromMetrics t dp wb' fp ah) ∧
    (∀ t dp wb fp fp' ah : ℝ, fp' ≤ fp →
      riskFromMetrics t dp wb fp ah ≤ riskFromMetrics t dp wb fp' ah) :=
  ⟨fun t t' dp wb fp ah ht =>
      riskFromMetrics_anti t t' dp dp wb wb fp fp ah ht le_rfl le_rfl le_rfl,
   fun t dp dp' wb fp ah hdp =>
      riskFromMetrics_anti t t dp dp' wb wb fp fp ah le_rfl hdp le_rfl le_rfl,
   fun t dp wb wb' fp ah hw =>
      riskFromMetrics_anti t t dp dp wb wb' fp fp ah le_rfl le_rfl hw le_rfl,
   fun t dp wb fp fp' ah hf =>
      riskFromMetrics_anti t t dp dp wb wb fp fp' ah le_rfl le_rfl le_rfl hf⟩

/-- C4 witness: monotonicity instantiated at concrete ladder inputs. -/
theorem C4_risk_monotone_witness :
    riskFromMetrics 5 6 7 8 2 ≤ riskFromMetrics 4 6 7 8 2 ∧
    riskFromMetrics 5 6 7 8 2 ≤ riskFromMetrics 5 5 7 8 2 ∧
    riskFromMetrics 5 6 7 8 2 ≤ riskFromMetrics 5 6 6 8 2 ∧
    riskFromMetrics 5 6 7 8 2 ≤ riskFromMetrics 5 6 7 7 2 :=
  ⟨C4_risk_monotone.1 5 4 6 7 8 2 (by norm_num),
   C4_risk_monotone.2.1 5 6 5 7 8 2 (by norm_num),
   C4_risk_monotone.2.2.1 5 6 7 6 8 2 (by norm_num),
   C4_risk_monotone.2.2.2 5 6 7 8 7 2 (by norm_num)⟩

/-- C5: the frost point equals the dew point whenever the latter is nonnegative;
when the dew point is negative, the frost point is the ice-phase Magnus recompute
(constants a=21.875, b=265.5) applied to the original T and RH. -/
theorem C5_frost_point_spec :
    (∀ t h d : ℝ, computeDewPoint t h = Except.ok d → 0 ≤ d →
      computeFrostPoint t h = Except.ok d) ∧
    (∀ t h d : ℝ, computeDewPoint t h = Except.ok d → d < 0 →
      computeFrostPoint t h = iceMagnusSpec t h) := by
  constructor
  · intro t h d hd h0
    unfold computeFrostPoint
    rw [hd]
    dsimp only
    rw [if_neg (not_lt.mpr h0), dewPoint_ok_rounded t h d hd]
  · intro t h d hd hneg
    unfold computeFrostPoint iceMagnusSpec
    rw [hd]
    dsimp only
    rw [if_pos hneg]

/-- C5 witness: at (20, 100) the dew point is 20 ≥ 0 and the frost point equals it;
at (-10, 100) the dew point is -10 < 0 and the ice-phase recompute is used. -/
theorem C5_frost_point_witness :
    computeFrostPoint 20 100 = Except.ok 20 ∧
    computeFrostPoint (-10) 100 = iceMagnusSpec (-10) 100 :=
  ⟨C5_frost_point_spec.1 20 100 20 dew_20_100 (by norm_num),
   C5_frost_point_spec.2 (-10) 100 (-10) dew_m10_100 (by norm_num)⟩

/-- C6: wet bulb clamps RH into [0,100]; below 5 (clamped) it returns T - 0.5
rounded to 2 decimals, in particular 4.5 at (5, 3); otherwise it applies Stull's
formula to the clamped RH and the unclamped T. -/
theorem C6_wet_bulb_spec :
    (∀ t h : ℝ, max 0 (min 100 h) < 5 → computeWetBulb t h = round2 (t - 0.5)) ∧
    computeWetBulb 5 3 = 4.5 ∧
    (∀ t h : ℝ, ¬ max 0 (min 100 h) < 5 →
      computeWetBulb t h = round2 (stullExpr t (max 0 (min 100 h)))) := by
  refine ⟨?_, ?_, ?_⟩
  · intro t h hc
    unfold computeWetBulb
    rw [if_pos hc]
  · unfold computeWetBulb
    rw [if_pos (by norm_num)]
    rw [show ((5 : ℝ) - 0.5) = 4.5 by norm_num]
    rw [round2_eq_int 4.5 450 (by norm_num) (by norm_num)]
    norm_num
  · intro t h hc
    unfold computeWetBulb
    rw [if_neg hc]

/-- C6 witness: the low-humidity path at an out-of-range RH = -10 and the Stull
path at (0, 50). -/
theorem C6_wet_bulb_witness :
    computeWetBulb 5 (-10) = round2 (5 - 0.5) ∧
    computeWetBulb 0 50 = round2 (stullExpr 0 (max 0 (min 100 50))) :=
  ⟨C6_wet_bulb_spec.1 5 (-10) (by norm_num),
   C6_wet_bulb_spec.2.2 0 50 (by norm_num)⟩

/-- C7: the dew point has the precondition RH > 0; every RH ≤ 0 produces a domain
error (in the Python source, ValueError from math.log, or ZeroDivisionError first
when additionally T = -237.7), never a silently substituted value. -/
theorem C7_dew_point_domain : ∀ t h : ℝ, h ≤ 0 → computeDewPoint t h = Except.error () :=
  dewPoint_err_of_nonpos

/-- C7 witness: dew point fails at T=5, RH=-3. -/
theorem C7_dew_point_domain_witness : computeDewPoint 5 (-3) = Except.error () :=
  C7_dew_point_domain 5 (-3) (by norm_num)

/-- C8: the freezing point is computed from the already-rounded dew point d:
both are converted to Kelvin and the source's formula is applied and re-rounded;
moreover every dew-point output d is indeed already rounded (round2 d = d). -/
theorem C8_freezing_point_spec :
    (∀ t h d : ℝ, computeDewPoint t h = Except.ok d → ¬ t + 273.15 ≤ 0 →
      ¬ 2954.61 / (t + 273.15) + 2.193665 * Real.log (t + 273.15) - 13.3448 = 0 →
      computeFreezingPoint t h = Except.ok (round2 ((d + 273.15 +
        2671.02 / (2954.61 / (t + 273.15) + 2.193665 * Real.log (t + 273.15) - 13.3448) -
        (t + 273.15)) - 273.15))) ∧
    (∀ t h d : ℝ, computeDewPoint t h = Except.ok d → round2 d = d) := by
  constructor
  · intro t h d hd h1 h2
    unfold computeFreezingPoint
    rw [hd]
    dsimp only
    rw [if_neg h1, if_neg h2]
  · exact dewPoint_ok_rounded

/-- C8 witness: the freezing-point formula evaluated at (20, 100), where the dew
point is exactly 20, together with the fact that 20 is already rounded. -/
theorem C8_freezing_point_witness :
    computeFreezingPoint 20 100 = Except.ok (round2 ((20 + 273.15 +
      2671.02 / (2954.61 / (20 + 273.15) + 2.193665 * Real.log (20 + 273.15) - 13.3448) -
      (20 + 273.15)) - 273.15)) ∧ round2 (20 : ℝ) = 20 :=
  ⟨C8_freezing_point_spec.1 20 100 20 dew_20_100 (by norm_num) (by
      rw [show ((20 : ℝ) + 273.15) = 293.15 by norm_num]
      have hL := log_29315_bounds
      have hden : (9.17 : ℝ) < 2954.61 / 293.15 + 2.193665 * Real.log 293.15 - 13.3448 := by
        nlinarith [hL.1]
      exact ne_of_gt (by linarith)),
   C8_freezing_point_spec.2 20 100 20 dew_20_100⟩

/-- C9: in the absolute-humidity ladder the third branch's condition implies the
second branch's, which matches first, so the ladder only ever yields 0, 1 or 2 —
the level-3 outcome is unreachable. -/
theorem C9_ah_branch_unreachable :
    (∀ ah t fp : ℝ, 2.8 ≤ ah ∧ t ≤ 1 ∧ fp ≤ 0 → 2.8 ≤ ah ∧ t ≤ 4 ∧ fp ≤ 0.5) ∧
    (∀ ah t fp : ℝ, ahLadder ah t fp = 0 ∨ ahLadder ah t fp = 1 ∨ ahLadder ah t fp = 2) := by
  constructor
  · rintro ah t fp ⟨h1, h2, h3⟩
    exact ⟨h1, by linarith, by linarith⟩
  · intro ah t fp
    unfold ahLadder
    split_ifs with h1 h2 h3
    · omega
    · omega
    · exact absurd ⟨h3.1, by linarith [h3.2.1], by linarith [h3.2.2]⟩ h2
    · omega

/-- C9 witness: the implication and the value bound at ah=3, t=0, fp=0 (where the
third branch's condition holds but the second matches first). -/
theorem C9_ah_branch_witness :
    (2.8 ≤ (3 : ℝ) ∧ (0 : ℝ) ≤ 4 ∧ (0 : ℝ) ≤ 0.5) ∧
    (ahLadder 3 0 0 = 0 ∨ ahLadder 3 0 0 = 1 ∨ ahLadder 3 0 0 = 2) :=
  ⟨C9_ah_branch_unreachable.1 3 0 0 ⟨by norm_num, by norm_num, by norm_num⟩,
   C9_ah_branch_unreachable.2 3 0 0⟩

/-- C10: whenever the frost-risk computation completes, its result is 5 exactly
when T ≤ -5: only the temperature ladder reaches 5, all others cap at 4 (the
absolute-humidity ladder at 3). -/
theorem C10_risk5_iff : ∀ t h : ℝ, ∀ r : ℤ, computeFrostRiskLevel t h = Except.ok r →
    (r = 5 ↔ t ≤ -5) := by
  intro t h r hr
  obtain ⟨dp, wb, fp, ah, rfl⟩ := frostRisk_ok_inv t h r hr
  exact riskFromMetrics_eq5_iff t dp wb fp ah

/-- C10 witness: at (20, 100) the computation completes with level 0, and indeed
0 = 5 is equivalent to 20 ≤ -5 (both false). -/
theorem C10_risk5_iff_witness : (0 : ℤ) = 5 ↔ (20 : ℝ) ≤ -5 :=
  C10_risk5_iff 20 100 0 frostRisk_20_100

end FrostRisks
